import Mathlib

/-!
Verification of the sanic HTTP front-end of Nominatim
(nominatim/server/sanic/server.py): format negotiation, formatter
dispatch, response assembly and the status endpoint.

The embedding follows the source file closely.  Query parameters and
the formatter registry are association lists; the per-request context
fields set by the on_request hook become an explicit record; the
possible outcomes of a request (uncaught exception, short-circuited
error response, handler response) become an inductive type.
-/

/-- An HTTP response as assembled by this server: status code, content
    type header and body. -/
structure HTTPResponse where
  status : Nat
  content_type : String
  body : String
  deriving DecidableEq, Repr

/-- Models the sanic framework helper sanic.response.text: builds a
    plain-text HTTP response.  In sanic the status defaults to 200 and
    the content type defaults to "text/plain; charset=utf-8"; callers
    in this file pass both explicitly, matching the defaults where the
    source omits them. -/
def sanic.response.text (body : String) (status : Nat)
    (content_type : String) : HTTPResponse :=
  { status := status, content_type := content_type, body := body }

/-- Tags for the result types used as keys of the formatter registry.
    The only result type registered by this server is StatusResult. -/
inductive ResultType where
  | StatusResult
  deriving DecidableEq, BEq, Repr

/-- Modelled from the spec: the backend result type StatusResult
    (module nominatim.apicmd.status, outside this tree) carries a
    health indicator; the status handler tests the truthiness of its
    status field, so a nonzero status code signals a non-healthy
    state and zero signals healthy. -/
structure StatusResult where
  status : Nat
  deriving DecidableEq, Repr

/-- Modelled from the spec: the formatter contract (module
    nominatim.result_formatter.v1, outside this tree): an ordered list
    of declared formats, a supports_format test, a list_formats
    enumeration, and a render operation format(result, fmt). -/
structure Formatter where
  formats : List String
  format : StatusResult → String → String

/-- supports_format: whether the requested format is among the
    declared formats. -/
def Formatter.supports_format (f : Formatter) (fmt : String) : Bool :=
  f.formats.contains fmt

/-- list_formats: the declared formats in declared order. -/
def Formatter.list_formats (f : Formatter) : List String :=
  f.formats

/-- The CONTENT_TYPE dict of server.py, as an association list in
    source order. -/
def CONTENT_TYPE : List (String × String) :=
  [("text", "text/plain; charset=utf-8"),
   ("xml", "text/xml; charset=utf-8")]

/-- usage_error: sanic.response.text(msg, status=400); the content
    type is the sanic default for text responses. -/
def usage_error (msg : String) : HTTPResponse :=
  sanic.response.text msg 400 "text/plain; charset=utf-8"

/-- The per-request context fields set by extract_format
    (request.ctx.formatter and request.ctx.format). -/
structure RequestCtx where
  formatter : Formatter
  format : String

/-- api_response: renders the result with the formatter and format of
    the request context; the content type comes from CONTENT_TYPE with
    fallback "application/json"; the status is the sanic default 200. -/
def api_response (ctx : RequestCtx) (result : StatusResult) : HTTPResponse :=
  sanic.response.text (ctx.formatter.format result ctx.format) 200
    ((CONTENT_TYPE.lookup ctx.format).getD "application/json")

/-- The route metadata attached at registration time
    (ctx_result_type and ctx_default_format). -/
structure RouteCtx where
  result_type : ResultType
  default_format : String

/-- request.args.get(key, default): the first value for the key among
    the query parameters, or the default when the key is absent. -/
def argsGet (args : List (String × String)) (key dflt : String) : String :=
  match args.lookup key with
  | some v => v
  | none => dflt

/-- The registry access app.ctx.formatters[rtype].  The Python dict
    subscript raises KeyError when the key is absent, which the
    negotiation outcome type records as keyError. -/
def lookupFormatter (formatters : List (ResultType × Formatter))
    (rtype : ResultType) : Option Formatter :=
  formatters.lookup rtype

/-- Outcome of the on_request hook extract_format: keyError models the
    KeyError raised by the dict subscript for an unregistered result
    type (an uncaught exception, no HTTP response built by this code);
    reject models returning an HTTP response, which short-circuits the
    request before the handler; proceed models returning None with the
    context fields set. -/
inductive NegotiationResult where
  | keyError
  | reject (resp : HTTPResponse)
  | proceed (ctx : RequestCtx)

/-- extract_format: resolve the formatter registered for the route
    result type, resolve the format parameter against the route
    default, reject an unsupported format with usage_error, otherwise
    attach formatter and format to the request context and let the
    request proceed. -/
def extract_format (formatters : List (ResultType × Formatter))
    (route : RouteCtx) (args : List (String × String)) : NegotiationResult :=
  match lookupFormatter formatters route.result_type with
  | none => .keyError
  | some formatter =>
    let fmt := argsGet args "format" route.default_format
    if formatter.supports_format fmt then
      .proceed { formatter := formatter, format := fmt }
    else
      .reject (usage_error ("Parameter \x27format\x27 must be one of: " ++
        String.intercalate ", " formatter.list_formats))

/-- The status endpoint handler: build the response from the backend
    result with api_response, then override the status to 500 when the
    format is text and the result status field is truthy (nonzero). -/
def status (ctx : RequestCtx) (result : StatusResult) : HTTPResponse :=
  let response := api_response ctx result
  if ctx.format == "text" && result.status != 0 then
    { response with status := 500 }
  else
    response

/-- Outcome of one request through the blueprint pipeline: crash when
    the hook raised; otherwise a response together with the number of
    backend calls made (0 when the hook short-circuited before the
    handler, 1 when the handler ran and awaited the backend). -/
inductive RequestOutcome where
  | crash
  | response (resp : HTTPResponse) (backendCalls : Nat)
  deriving DecidableEq, Repr

/-- One request to the status route: the on_request hook runs first; a
    response from the hook is returned as is with the handler and the
    backend never invoked; otherwise the handler runs, awaiting the
    backend result and applying the status override. -/
def handle_status_request (formatters : List (ResultType × Formatter))
    (route : RouteCtx) (args : List (String × String))
    (backendResult : StatusResult) : RequestOutcome :=
  match extract_format formatters route args with
  | .keyError => .crash
  | .reject resp => .response resp 0
  | .proceed ctx => .response (status ctx backendResult) 1

/-- The registration of the status route: @api.get with
    ctx_result_type=StatusResult and ctx_default_format=text. -/
def statusRoute : RouteCtx :=
  { result_type := .StatusResult, default_format := "text" }

/-- The application state assembled by get_application: the formatter
    registry and the registered routes. -/
structure App where
  formatters : List (ResultType × Formatter)
  routes : List RouteCtx

/-- get_application: builds the formatter registry by calling
    formatting.create for each result type in the tuple (StatusResult,)
    and registers the blueprint routes.  The create function (module
    nominatim.result_formatter.v1, outside this tree) is a parameter;
    a raised exception from it is the only failure path, and
    get_application performs no further validation of the registry
    against the route metadata. -/
def get_application (create : ResultType → Except String Formatter) :
    Except String App := do
  let f ← create .StatusResult
  return { formatters := [(.StatusResult, f)], routes := [statusRoute] }

/-- A sample formatter instance for concrete witnesses: declared
    formats text and json, rendering the requested format name. -/
def sampleFormatter : Formatter :=
  { formats := ["text", "json"],
    format := fun _ fmt => fmt }

/-- A sample formatter supporting only json, used to exercise the case
    of a route default format outside the supported set. -/
def jsonOnlyFormatter : Formatter :=
  { formats := ["json"],
    format := fun _ _ => "json body" }

/-! ## Helper lemmas -/

theorem extract_format_none {formatters : List (ResultType × Formatter)}
    {route : RouteCtx} (args : List (String × String))
    (hf : lookupFormatter formatters route.result_type = none) :
    extract_format formatters route args = .keyError := by
  unfold extract_format
  rw [hf]

theorem extract_format_supported {formatters : List (ResultType × Formatter)}
    {route : RouteCtx} {args : List (String × String)} {f : Formatter}
    (hf : lookupFormatter formatters route.result_type = some f)
    (hs : f.supports_format (argsGet args "format" route.default_format) = true) :
    extract_format formatters route args =
      .proceed { formatter := f,
                 format := argsGet args "format" route.default_format } := by
  unfold extract_format
  rw [hf]
  simp [hs]

theorem extract_format_unsupported {formatters : List (ResultType × Formatter)}
    {route : RouteCtx} {args : List (String × String)} {f : Formatter}
    (hf : lookupFormatter formatters route.result_type = some f)
    (hs : f.supports_format (argsGet args "format" route.default_format) = false) :
    extract_format formatters route args =
      .reject (usage_error ("Parameter \x27format\x27 must be one of: " ++
        String.intercalate ", " f.list_formats)) := by
  unfold extract_format
  rw [hf]
  simp [hs]

theorem extract_format_proceed_inv {formatters : List (ResultType × Formatter)}
    {route : RouteCtx} {args : List (String × String)} {ctx : RequestCtx}
    (h : extract_format formatters route args = .proceed ctx) :
    lookupFormatter formatters route.result_type = some ctx.formatter ∧
    ctx.format = argsGet args "format" route.default_format ∧
    ctx.formatter.supports_format ctx.format = true := by
  cases hf : lookupFormatter formatters route.result_type with
  | none =>
      rw [extract_format_none args hf] at h
      simp at h
  | some f =>
      by_cases hs : f.supports_format (argsGet args "format" route.default_format) = true
      · rw [extract_format_supported hf hs] at h
        injection h with h2
        subst h2
        exact ⟨rfl, rfl, hs⟩
      · rw [extract_format_unsupported hf (by simpa using hs)] at h
        simp at h

theorem api_response_status_eq (ctx : RequestCtx) (res : StatusResult) :
    (api_response ctx res).status = 200 := rfl

theorem api_response_content_type_eq (ctx : RequestCtx) (res : StatusResult) :
    (api_response ctx res).content_type =
      (if ctx.format = "text" then "text/plain; charset=utf-8"
       else if ctx.format = "xml" then "text/xml; charset=utf-8"
       else "application/json") := by
  unfold api_response CONTENT_TYPE sanic.response.text
  by_cases h1 : ctx.format = "text"
  · simp [List.lookup, h1]
  · by_cases h2 : ctx.format = "xml"
    · have e1 : (ctx.format == "text") = false := by simp [h1]
      simp [List.lookup, h1, h2, e1]
    · have e1 : (ctx.format == "text") = false := by simp [h1]
      have e2 : (ctx.format == "xml") = false := by simp [h2]
      simp [List.lookup, h1, h2, e1, e2]

theorem status_status_eq (ctx : RequestCtx) (res : StatusResult) :
    (status ctx res).status =
      (if ctx.format = "text" ∧ res.status ≠ 0 then 500 else 200) := by
  unfold status
  by_cases h1 : ctx.format = "text" <;> by_cases h2 : res.status = 0 <;>
    simp [h1, h2, api_response_status_eq]

theorem status_body_eq (ctx : RequestCtx) (res : StatusResult) :
    (status ctx res).body = (api_response ctx res).body := by
  unfold status
  split <;> rfl

theorem status_content_type_eq (ctx : RequestCtx) (res : StatusResult) :
    (status ctx res).content_type = (api_response ctx res).content_type := by
  unfold status
  split <;> rfl

theorem handle_of_keyError {formatters : List (ResultType × Formatter)}
    {route : RouteCtx} {args : List (String × String)} (res : StatusResult)
    (h : extract_format formatters route args = .keyError) :
    handle_status_request formatters route args res = .crash := by
  unfold handle_status_request
  rw [h]

theorem handle_of_reject {formatters : List (ResultType × Formatter)}
    {route : RouteCtx} {args : List (String × String)} {resp : HTTPResponse}
    (res : StatusResult)
    (h : extract_format formatters route args = .reject resp) :
    handle_status_request formatters route args res = .response resp 0 := by
  unfold handle_status_request
  rw [h]

theorem handle_of_proceed {formatters : List (ResultType × Formatter)}
    {route : RouteCtx} {args : List (String × String)} {ctx : RequestCtx}
    (res : StatusResult)
    (h : extract_format formatters route args = .proceed ctx) :
    handle_status_request formatters route args res =
      .response (status ctx res) 1 := by
  unfold handle_status_request
  rw [h]

theorem handle_response_one_inv {formatters : List (ResultType × Formatter)}
    {route : RouteCtx} {args : List (String × String)} {res : StatusResult}
    {resp : HTTPResponse}
    (h : handle_status_request formatters route args res = .response resp 1) :
    ∃ ctx, extract_format formatters route args = .proceed ctx ∧
      resp = status ctx res := by
  unfold handle_status_request at h
  cases he : extract_format formatters route args with
  | keyError => rw [he] at h; simp at h
  | reject r => rw [he] at h; simp at h
  | proceed ctx =>
      rw [he] at h
      injection h with h1 h2
      exact ⟨ctx, rfl, h1.symm⟩

theorem handle_response_zero_inv {formatters : List (ResultType × Formatter)}
    {route : RouteCtx} {args : List (String × String)} {res : StatusResult}
    {resp : HTTPResponse}
    (h : handle_status_request formatters route args res = .response resp 0) :
    extract_format formatters route args = .reject resp := by
  unfold handle_status_request at h
  cases he : extract_format formatters route args with
  | keyError => rw [he] at h; simp at h
  | reject r =>
      rw [he] at h
      injection h with h1 h2
      rw [h1]
  | proceed ctx => rw [he] at h; simp at h

theorem extract_format_reject_inv {formatters : List (ResultType × Formatter)}
    {route : RouteCtx} {args : List (String × String)} {resp : HTTPResponse}
    (h : extract_format formatters route args = .reject resp) :
    resp.status = 400 ∧ resp.content_type = "text/plain; charset=utf-8" := by
  cases hf : lookupFormatter formatters route.result_type with
  | none =>
      rw [extract_format_none args hf] at h
      simp at h
  | some f =>
      by_cases hs : f.supports_format (argsGet args "format" route.default_format) = true
      · rw [extract_format_supported hf hs] at h
        simp at h
      · rw [extract_format_unsupported hf (by simpa using hs)] at h
        injection h with h1
        rw [← h1]
        exact ⟨rfl, rfl⟩

/-! ## Claims -/

/-- C1: when the resolved format (the format query parameter, or the
    route default when the parameter is absent) is not in the supported
    set of the formatter registered for the route, the request
    produces exactly a 400 response with content type
    text/plain; charset=utf-8 whose body is the fixed prefix followed
    by the declared formats joined by ", " in declared order, with
    zero backend calls: the route handler and the backend operation
    are never invoked. -/
theorem C1_unsupported_format_rejected
    (formatters : List (ResultType × Formatter)) (route : RouteCtx)
    (args : List (String × String)) (res : StatusResult) (f : Formatter)
    (hf : lookupFormatter formatters route.result_type = some f)
    (hu : f.supports_format (argsGet args "format" route.default_format) = false) :
    handle_status_request formatters route args res =
      .response
        { status := 400,
          content_type := "text/plain; charset=utf-8",
          body := "Parameter \x27format\x27 must be one of: " ++
            String.intercalate ", " f.list_formats } 0 :=
  handle_of_reject res (extract_format_unsupported hf hu)

/-- C1 witness: the status route with the sample formatter (formats
    text, json) and the parameter format=csv yields the 400 response
    with the joined format list and zero backend calls. -/
theorem C1_witness :
    lookupFormatter [(.StatusResult, sampleFormatter)] statusRoute.result_type =
      some sampleFormatter ∧
    sampleFormatter.supports_format
      (argsGet [("format", "csv")] "format" statusRoute.default_format) = false ∧
    handle_status_request [(.StatusResult, sampleFormatter)] statusRoute
      [("format", "csv")] ⟨0⟩ =
      .response
        { status := 400,
          content_type := "text/plain; charset=utf-8",
          body := "Parameter \x27format\x27 must be one of: " ++
            String.intercalate ", " sampleFormatter.list_formats } 0 :=
  ⟨rfl, by decide,
   C1_unsupported_format_rejected [(.StatusResult, sampleFormatter)] statusRoute
     [("format", "csv")] ⟨0⟩ sampleFormatter rfl (by decide)⟩

/-- C2: for a request to the status route that passes negotiation (the
    handler ran, one backend call), the response status is 500 exactly
    when the negotiated format is text and the backend result signals a
    non-healthy state (nonzero status field); in every other case the
    status is 200. -/
theorem C2_status_500_iff_text_unhealthy
    (formatters : List (ResultType × Formatter)) (route : RouteCtx)
    (args : List (String × String)) (res : StatusResult) (resp : HTTPResponse)
    (h : handle_status_request formatters route args res = .response resp 1) :
    (resp.status = 500 ↔
      argsGet args "format" route.default_format = "text" ∧ res.status ≠ 0) ∧
    (¬(argsGet args "format" route.default_format = "text" ∧ res.status ≠ 0) →
      resp.status = 200) := by
  obtain ⟨ctx, hp, hr⟩ := handle_response_one_inv h
  obtain ⟨-, hfmt, -⟩ := extract_format_proceed_inv hp
  subst hr
  rw [status_status_eq, hfmt]
  by_cases hc : argsGet args "format" route.default_format = "text" ∧ res.status ≠ 0
  · simp [hc]
  · simp [hc]

/-- C2 witness: an unhealthy backend result (status field 700) with no
    format parameter on the status route gives a response with status
    500, and the iff instantiates at that concrete request. -/
theorem C2_witness :
    ((HTTPResponse.mk 500 "text/plain; charset=utf-8" "text").status = 500 ↔
      argsGet [] "format" statusRoute.default_format = "text" ∧
        (StatusResult.mk 700).status ≠ 0) ∧
    (¬(argsGet [] "format" statusRoute.default_format = "text" ∧
        (StatusResult.mk 700).status ≠ 0) →
      (HTTPResponse.mk 500 "text/plain; charset=utf-8" "text").status = 200) :=
  C2_status_500_iff_text_unhealthy [(.StatusResult, sampleFormatter)] statusRoute
    [] ⟨700⟩ (HTTPResponse.mk 500 "text/plain; charset=utf-8" "text") (by decide)

/-- C3: for a request that passed negotiation, the response content
    type is a function of the resolved format alone: text maps to
    text/plain; charset=utf-8, xml maps to text/xml; charset=utf-8,
    and every other format maps to application/json. -/
theorem C3_content_type_fixed_mapping
    (formatters : List (ResultType × Formatter)) (route : RouteCtx)
    (args : List (String × String)) (res : StatusResult) (resp : HTTPResponse)
    (h : handle_status_request formatters route args res = .response resp 1) :
    resp.content_type =
      (if argsGet args "format" route.default_format = "text" then
        "text/plain; charset=utf-8"
       else if argsGet args "format" route.default_format = "xml" then
        "text/xml; charset=utf-8"
       else "application/json") := by
  obtain ⟨ctx, hp, hr⟩ := handle_response_one_inv h
  obtain ⟨-, hfmt, -⟩ := extract_format_proceed_inv hp
  subst hr
  rw [status_content_type_eq, api_response_content_type_eq, hfmt]

/-- C3 witness: the request format=json on the status route, even with
    an unhealthy result, produces content type application/json,
    matching the fixed mapping at format json. -/
theorem C3_witness :
    (HTTPResponse.mk 200 "application/json" "json").content_type =
      (if argsGet [("format", "json")] "format" statusRoute.default_format =
          "text" then
        "text/plain; charset=utf-8"
       else if argsGet [("format", "json")] "format" statusRoute.default_format =
          "xml" then
        "text/xml; charset=utf-8"
       else "application/json") :=
  C3_content_type_fixed_mapping [(.StatusResult, sampleFormatter)] statusRoute
    [("format", "json")] ⟨700⟩ (HTTPResponse.mk 200 "application/json" "json")
    (by decide)

/-- C4 counterexample: with a formatter creation function whose
    StatusResult formatter supports only json, the status route
    default format text is outside the supported set, yet
    get_application still builds the application instead of failing. -/
theorem C4_counterexample :
    jsonOnlyFormatter.supports_format statusRoute.default_format = false ∧
    get_application (fun _ => .ok jsonOnlyFormatter) =
      .ok { formatters := [(.StatusResult, jsonOnlyFormatter)],
            routes := [statusRoute] } :=
  ⟨by decide, rfl⟩

/-- C4 amended: get_application performs no validation of the route
    default format against the supported set: it builds the
    application whenever formatter creation succeeds, even when the
    default format is unsupported; that misconfiguration instead
    surfaces at request time, where every request without a format
    parameter is rejected with the 400 usage error before the handler
    or the backend runs. -/
theorem C4_no_startup_default_format_check
    (create : ResultType → Except String Formatter) (f : Formatter)
    (args : List (String × String)) (res : StatusResult)
    (hc : create .StatusResult = .ok f)
    (hu : f.supports_format statusRoute.default_format = false)
    (hnone : args.lookup "format" = none) :
    get_application create =
      .ok { formatters := [(.StatusResult, f)], routes := [statusRoute] } ∧
    handle_status_request [(.StatusResult, f)] statusRoute args res =
      .response (usage_error ("Parameter \x27format\x27 must be one of: " ++
        String.intercalate ", " f.list_formats)) 0 := by
  constructor
  · unfold get_application
    rw [hc]
    rfl
  · have hget : argsGet args "format" statusRoute.default_format =
        statusRoute.default_format := by
      unfold argsGet
      rw [hnone]
    refine handle_of_reject res (extract_format_unsupported rfl ?_)
    rw [hget]
    exact hu

/-- C4 witness: the amended claim at the json-only formatter and a
    healthy backend result. -/
theorem C4_witness :
    get_application (fun _ => .ok jsonOnlyFormatter) =
      .ok { formatters := [(.StatusResult, jsonOnlyFormatter)],
            routes := [statusRoute] } ∧
    handle_status_request [(.StatusResult, jsonOnlyFormatter)] statusRoute []
      ⟨0⟩ =
      .response (usage_error ("Parameter \x27format\x27 must be one of: " ++
        String.intercalate ", " jsonOnlyFormatter.list_formats)) 0 :=
  C4_no_startup_default_format_check (fun _ => .ok jsonOnlyFormatter)
    jsonOnlyFormatter [] ⟨0⟩ rfl (by decide) rfl

/-- C5: the registry lookup for an unregistered result type raises
    KeyError, so the request crashes without any HTTP response: the
    failure is never surfaced as a user-facing response built by this
    code; and the application built by get_application has the status
    route result type registered, with the lookup returning exactly
    the formatter created at startup. -/
theorem C5_registry_lookup_contract
    (formatters : List (ResultType × Formatter)) (route : RouteCtx)
    (args : List (String × String)) (res : StatusResult)
    (create : ResultType → Except String Formatter) (f : Formatter) (app : App)
    (hnone : lookupFormatter formatters route.result_type = none)
    (hc : create .StatusResult = .ok f)
    (happ : get_application create = .ok app) :
    handle_status_request formatters route args res = .crash ∧
    (∀ resp n, handle_status_request formatters route args res ≠ .response resp n) ∧
    lookupFormatter app.formatters statusRoute.result_type = some f := by
  have hcrash : handle_status_request formatters route args res = .crash :=
    handle_of_keyError res (extract_format_none args hnone)
  refine ⟨hcrash, ?_, ?_⟩
  · intro resp n hresp
    rw [hcrash] at hresp
    simp at hresp
  · unfold get_application at happ
    rw [hc] at happ
    injection happ with h1
    rw [← h1]
    rfl

/-- C5 witness: an empty registry crashes the request and produces no
    response; the application built with the sample formatter resolves
    the status result type to that formatter. -/
theorem C5_witness :
    handle_status_request [] statusRoute [] ⟨0⟩ = .crash ∧
    (∀ resp n, handle_status_request [] statusRoute [] ⟨0⟩ ≠ .response resp n) ∧
    lookupFormatter
      (App.mk [(.StatusResult, sampleFormatter)] [statusRoute]).formatters
      statusRoute.result_type = some sampleFormatter :=
  C5_registry_lookup_contract [] statusRoute [] ⟨0⟩
    (fun _ => .ok sampleFormatter) sampleFormatter
    (App.mk [(.StatusResult, sampleFormatter)] [statusRoute]) rfl rfl rfl

/-- C6: when the query parameters contain no format key, the resolved
    format equals the route default, negotiation attaches exactly that
    default when it proceeds, and the declared default of the status
    route is text. -/
theorem C6_default_format_used
    (formatters : List (ResultType × Formatter)) (route : RouteCtx)
    (args : List (String × String))
    (hnone : args.lookup "format" = none) :
    argsGet args "format" route.default_format = route.default_format ∧
    (∀ ctx, extract_format formatters route args = .proceed ctx →
      ctx.format = route.default_format) ∧
    statusRoute.default_format = "text" := by
  have hget : argsGet args "format" route.default_format = route.default_format := by
    unfold argsGet
    rw [hnone]
  refine ⟨hget, ?_, rfl⟩
  intro ctx hp
  obtain ⟨-, hfmt, -⟩ := extract_format_proceed_inv hp
  rw [hfmt, hget]

/-- C6 witness: on the status route with no query parameters the
    resolved format is the declared default text. -/
theorem C6_witness :
    argsGet [] "format" statusRoute.default_format = statusRoute.default_format ∧
    (∀ ctx, extract_format [(.StatusResult, sampleFormatter)] statusRoute [] =
        .proceed ctx →
      ctx.format = statusRoute.default_format) ∧
    statusRoute.default_format = "text" :=
  C6_default_format_used [(.StatusResult, sampleFormatter)] statusRoute [] rfl

/-- C7: when the 500 override applies (format text, non-healthy
    result), the handler response differs from the api_response of the
    same context and result only in the status field: body and content
    type are unchanged, and api_response alone carries status 200. -/
theorem C7_override_changes_only_status
    (ctx : RequestCtx) (res : StatusResult)
    (ht : ctx.format = "text") (hu : res.status ≠ 0) :
    (status ctx res).status = 500 ∧
    (api_response ctx res).status = 200 ∧
    (status ctx res).body = (api_response ctx res).body ∧
    (status ctx res).content_type = (api_response ctx res).content_type := by
  refine ⟨?_, api_response_status_eq ctx res, status_body_eq ctx res,
    status_content_type_eq ctx res⟩
  rw [status_status_eq]
  simp [ht, hu]

/-- C7 witness: the override case at the sample formatter with format
    text and result status 700. -/
theorem C7_witness :
    (status ⟨sampleFormatter, "text"⟩ ⟨700⟩).status = 500 ∧
    (api_response ⟨sampleFormatter, "text"⟩ ⟨700⟩).status = 200 ∧
    (status ⟨sampleFormatter, "text"⟩ ⟨700⟩).body =
      (api_response ⟨sampleFormatter, "text"⟩ ⟨700⟩).body ∧
    (status ⟨sampleFormatter, "text"⟩ ⟨700⟩).content_type =
      (api_response ⟨sampleFormatter, "text"⟩ ⟨700⟩).content_type :=
  C7_override_changes_only_status ⟨sampleFormatter, "text"⟩ ⟨700⟩ rfl (by decide)

/-- C8: whenever negotiation lets a request proceed, the attached
    format is accepted by the attached formatter and the attached
    formatter is exactly the one registered for the route result type;
    and when the route default format is unsupported, even a request
    without a format parameter is rejected with the 400 usage error and
    zero backend calls instead of reaching the handler. -/
theorem C8_request_context_invariant
    (formatters : List (ResultType × Formatter)) (route : RouteCtx)
    (args : List (String × String)) (res : StatusResult) :
    (∀ ctx, extract_format formatters route args = .proceed ctx →
      ctx.formatter.supports_format ctx.format = true ∧
      lookupFormatter formatters route.result_type = some ctx.formatter) ∧
    (∀ f, lookupFormatter formatters route.result_type = some f →
      args.lookup "format" = none →
      f.supports_format route.default_format = false →
      handle_status_request formatters route args res =
        .response (usage_error ("Parameter \x27format\x27 must be one of: " ++
          String.intercalate ", " f.list_formats)) 0 ∧
      (usage_error ("Parameter \x27format\x27 must be one of: " ++
        String.intercalate ", " f.list_formats)).status = 400) := by
  constructor
  · intro ctx hp
    obtain ⟨hf, -, hs⟩ := extract_format_proceed_inv hp
    exact ⟨hs, hf⟩
  · intro f hf hnone hu
    have hget : argsGet args "format" route.default_format =
        route.default_format := by
      unfold argsGet
      rw [hnone]
    refine ⟨handle_of_reject res (extract_format_unsupported hf ?_), rfl⟩
    rw [hget]
    exact hu

/-- C8 witness: with the json-only formatter registered for the status
    route, the request without a format parameter is rejected with the
    400 usage error and the backend is never called. -/
theorem C8_witness :
    handle_status_request [(.StatusResult, jsonOnlyFormatter)] statusRoute []
      ⟨0⟩ =
      .response (usage_error ("Parameter \x27format\x27 must be one of: " ++
        String.intercalate ", " jsonOnlyFormatter.list_formats)) 0 ∧
    (usage_error ("Parameter \x27format\x27 must be one of: " ++
      String.intercalate ", " jsonOnlyFormatter.list_formats)).status = 400 :=
  (C8_request_context_invariant [(.StatusResult, jsonOnlyFormatter)] statusRoute
    [] ⟨0⟩).2 jsonOnlyFormatter rfl rfl (by decide)

/-- C9: negotiation is deterministic and independent of backend state:
    extract_format depends only on the registry, the route metadata and
    the query parameters; a request rejected by negotiation yields the
    identical response, with the backend never invoked, for any two
    backend results; and a proceeding request attaches the same
    context for any two backend results. -/
theorem C9_negotiation_deterministic
    (formatters : List (ResultType × Formatter)) (route : RouteCtx)
    (args : List (String × String)) (res1 res2 : StatusResult) :
    extract_format formatters route args = extract_format formatters route args ∧
    (∀ resp, handle_status_request formatters route args res1 =
        .response resp 0 →
      handle_status_request formatters route args res2 = .response resp 0) ∧
    (∀ ctx, extract_format formatters route args = .proceed ctx →
      handle_status_request formatters route args res1 =
        .response (status ctx res1) 1 ∧
      handle_status_request formatters route args res2 =
        .response (status ctx res2) 1) := by
  refine ⟨rfl, ?_, ?_⟩
  · intro resp h
    exact handle_of_reject res2 (handle_response_zero_inv h)
  · intro ctx hp
    exact ⟨handle_of_proceed res1 hp, handle_of_proceed res2 hp⟩

/-- C9 witness: a rejected request (format=csv) produces the identical
    400 response for two different backend results. -/
theorem C9_witness :
    handle_status_request [(.StatusResult, sampleFormatter)] statusRoute
      [("format", "csv")] ⟨999⟩ =
      .response (usage_error ("Parameter \x27format\x27 must be one of: " ++
        String.intercalate ", " sampleFormatter.list_formats)) 0 :=
  (C9_negotiation_deterministic [(.StatusResult, sampleFormatter)] statusRoute
    [("format", "csv")] ⟨0⟩ ⟨999⟩).2.1
    (usage_error ("Parameter \x27format\x27 must be one of: " ++
      String.intercalate ", " sampleFormatter.list_formats)) (by decide)

/-- C10: every HTTP response produced along the paths of this core
    (negotiation rejection, successful rendering, status override) has
    status 200, 400 or 500, and status 500 occurs only when the
    resolved format is text. -/
theorem C10_status_code_range
    (formatters : List (ResultType × Formatter)) (route : RouteCtx)
    (args : List (String × String)) (res : StatusResult)
    (resp : HTTPResponse) (n : Nat)
    (h : handle_status_request formatters route args res = .response resp n) :
    (resp.status = 200 ∨ resp.status = 400 ∨ resp.status = 500) ∧
    (resp.status = 500 → argsGet args "format" route.default_format = "text") := by
  unfold handle_status_request at h
  cases he : extract_format formatters route args with
  | keyError => rw [he] at h; simp at h
  | reject r =>
      rw [he] at h
      injection h with h1 h2
      have h400 := (extract_format_reject_inv he).1
      rw [← h1]
      refine ⟨Or.inr (Or.inl h400), ?_⟩
      intro h500
      rw [h400] at h500
      exact absurd h500 (by decide)
  | proceed ctx =>
      rw [he] at h
      injection h with h1 h2
      obtain ⟨-, hfmt, -⟩ := extract_format_proceed_inv he
      rw [← h1, status_status_eq]
      by_cases hc : ctx.format = "text" ∧ res.status ≠ 0
      · refine ⟨Or.inr (Or.inr (by simp [hc])), fun _ => ?_⟩
        rw [← hfmt]
        exact hc.1
      · refine ⟨Or.inl (by simp [hc]), ?_⟩
        intro h500
        rw [if_neg hc] at h500
        exact absurd h500 (by decide)

/-- C10 witness: the 500 response of the unhealthy text-format request
    is in the allowed status set, and its resolved format is text. -/
theorem C10_witness :
    ((HTTPResponse.mk 500 "text/plain; charset=utf-8" "text").status = 200 ∨
     (HTTPResponse.mk 500 "text/plain; charset=utf-8" "text").status = 400 ∨
     (HTTPResponse.mk 500 "text/plain; charset=utf-8" "text").status = 500) ∧
    ((HTTPResponse.mk 500 "text/plain; charset=utf-8" "text").status = 500 →
      argsGet [] "format" statusRoute.default_format = "text") :=
  C10_status_code_range [(.StatusResult, sampleFormatter)] statusRoute [] ⟨700⟩
    (HTTPResponse.mk 500 "text/plain; charset=utf-8" "text") 1 (by decide)
